import Mathlib

/-!
Shallow embedding of `src/multi_server_client/multi_server_client.py`
(`MultiServerClient`): connection/discovery (`connect_all`, `_connect_server`),
the four aggregated listing operations, and the three routed call operations
(`call_tool`, `read_resource`, `get_prompt`).

Modelling conventions:
- Python `dict`s (insertion ordered, assignment updates in place or appends)
  are association lists with `insertA`; `self.sessions` only matters through
  its keys and is a `List String` with `insertKey`.
- `meta` fields (`Dict[str, Any] | None`) are `List (String × String)`;
  `None` and `{}` are both `[]` (the code only reads them through
  `tool.meta or {}`, which identifies the two).
- The external world (whether a server's spawn/initialize succeeds, and what
  each of its four capability queries returns or whether it raises) is a
  `ServerBehavior` per server name; a query that raises is `none`.
- Raised Python exceptions are the error channel of `Except PyErr`;
  `KeyError` models an unguarded `d[k]` lookup failing.
- Forwarding a call to a live session is the boundary of the model: the
  routed operations return the routing decision (target server and, for
  resources, the actual URI forwarded).
-/

namespace MSC

/-- Error channel for raised Python exceptions. -/
inductive PyErr where
  | keyError (k : String)
  | mcpError (code : Int) (message : String)
  | valueError (message : String)
  | exn (message : String)
  deriving DecidableEq, Repr

/-- A single quote character, used inside error-message strings. -/
def sq : String := String.singleton (Char.ofNat 39)

/-- Association-list lookup, mirroring Python `d.get(k)`. -/
def lookupA {α : Type} : List (String × α) → String → Option α
  | [], _ => none
  | (k', v') :: rest, k => if k' = k then some v' else lookupA rest k

/-- Association-list assignment `d[k] = v`: updates in place when the key is
present (Python dicts keep insertion order on update), appends otherwise. -/
def insertA {α : Type} : List (String × α) → String → α → List (String × α)
  | [], k, v => [(k, v)]
  | (k', v') :: rest, k, v =>
      if k' = k then (k, v) :: rest else (k', v') :: insertA rest k v

/-- Key-set effect of `d[k] = v` on an insertion-ordered key list. -/
def insertKey : List String → String → List String
  | [], k => [k]
  | k' :: rest, k => if k' = k then k' :: rest else k' :: insertKey rest k

/-- `names.foldl` of repeated assignment: registers every name in `names`
to the server `srv` (the tool/prompt mapping loops of `_connect_server`). -/
def registerAll (m : List (String × String)) (names : List String) (srv : String) :
    List (String × String) :=
  names.foldl (fun m n => insertA m n srv) m

/-- Concatenation of the per-element lists, in order (the nested
append-into-accumulator loops of the listing operations produce this). -/
def concatMapL {α β : Type} (f : α → List β) : List α → List β
  | [] => []
  | a :: l => f a ++ concatMapL f l

/-- `mcp.types.Tool`, restricted to the fields the client reads. -/
structure Tool where
  name : String
  meta : List (String × String)
  deriving DecidableEq, Repr

/-- `mcp.types.Resource`, restricted to the fields the client reads;
`uri` is the string form of the pydantic `AnyUrl`. -/
structure Resource where
  name : String
  uri : String
  meta : List (String × String)
  deriving DecidableEq, Repr

/-- `mcp.types.ResourceTemplate`, restricted to the fields the client reads. -/
structure ResourceTemplate where
  name : String
  uriTemplate : String
  meta : List (String × String)
  deriving DecidableEq, Repr

/-- `mcp.types.Prompt`, restricted to the fields the client reads. -/
structure Prompt where
  name : String
  meta : List (String × String)
  deriving DecidableEq, Repr

/-- `mcp.types.ListToolsResult`. -/
structure ListToolsResult where
  tools : List Tool
  nextCursor : Option String
  deriving DecidableEq, Repr

/-- `mcp.types.ListResourcesResult`. -/
structure ListResourcesResult where
  resources : List Resource
  nextCursor : Option String
  deriving DecidableEq, Repr

/-- `mcp.types.ListResourceTemplatesResult`. -/
structure ListResourceTemplatesResult where
  resourceTemplates : List ResourceTemplate
  nextCursor : Option String
  deriving DecidableEq, Repr

/-- `mcp.types.ListPromptsResult`. -/
structure ListPromptsResult where
  prompts : List Prompt
  nextCursor : Option String
  deriving DecidableEq, Repr

/-- `ServerCapabilities` (the per-server snapshot pydantic model):
each kind is `None` until its query succeeds. -/
structure ServerCapabilities where
  name : String
  tools : Option ListToolsResult := none
  resources : Option ListResourcesResult := none
  resource_templates : Option ListResourceTemplatesResult := none
  prompts : Option ListPromptsResult := none
  deriving DecidableEq, Repr

/-- `mcp.types.CallToolResult`, restricted to the fields `_create_error_result`
sets: the text of each content block, and the `isError` flag. -/
structure CallToolResult where
  contentText : List String
  isError : Bool
  deriving DecidableEq, Repr

/-- The mutable state of a `MultiServerClient` (its four dictionaries;
`sessions` is kept as its insertion-ordered key list, the session objects
themselves being opaque handles). -/
structure ClientState where
  sessions : List String
  capabilities : List (String × ServerCapabilities)
  tool_to_server : List (String × String)
  prompt_to_server : List (String × String)
  deriving DecidableEq, Repr

/-- The state `__init__` builds: all four dictionaries empty. -/
def freshState : ClientState := ⟨[], [], [], []⟩

/-- External behaviour of one server for one connection attempt:
whether spawn + `initialize()` succeed, and what each of the four
capability queries returns (`none` = the query raises). -/
structure ServerBehavior where
  connectOk : Bool
  toolsResult : Option ListToolsResult
  resourcesResult : Option ListResourcesResult
  templatesResult : Option ListResourceTemplatesResult
  promptsResult : Option ListPromptsResult
  deriving DecidableEq, Repr

/-- The snapshot `_connect_server` assembles for a server whose connection
succeeded: each kind is exactly the query's result when that query
succeeded, `none` when it raised. -/
def discoverySnapshot (env : String → ServerBehavior) (server_name : String) :
    ServerCapabilities :=
  { name := server_name
    tools := (env server_name).toolsResult
    resources := (env server_name).resourcesResult
    resource_templates := (env server_name).templatesResult
    prompts := (env server_name).promptsResult }

/-- `MultiServerClient._connect_server`: raises when spawn/initialize fails;
otherwise registers the session, then queries the four kinds, each inside
its own try/except (a raised query leaves that kind `None` and moves on),
updating the tool and prompt routing tables from the successful queries,
and finally stores the snapshot. -/
def connectServer (env : String → ServerBehavior) (st : ClientState)
    (server_name : String) : Except PyErr ClientState :=
  let b := env server_name
  if b.connectOk then
    let st1 : ClientState := { st with sessions := insertKey st.sessions server_name }
    let st2 : ClientState :=
      match b.toolsResult with
      | some tr =>
          let m := registerAll st1.tool_to_server (tr.tools.map Tool.name) server_name
          { st1 with tool_to_server := m }
      | none => st1
    let st3 : ClientState :=
      match b.promptsResult with
      | some pr =>
          let m := registerAll st2.prompt_to_server (pr.prompts.map Prompt.name) server_name
          { st2 with prompt_to_server := m }
      | none => st2
    let caps := insertA st3.capabilities server_name (discoverySnapshot env server_name)
    Except.ok { st3 with capabilities := caps }
  else
    Except.error (PyErr.exn ("failed to connect to " ++ server_name))

/-- One iteration of the `connect_all` loop: `_connect_server` wrapped in the
per-server try/except (a failure is logged and the state left unchanged). -/
def connectAllStep (env : String → ServerBehavior) (st : ClientState)
    (server_name : String) : ClientState :=
  match connectServer env st server_name with
  | Except.ok st' => st'
  | Except.error _ => st

/-- `MultiServerClient.connect_all` (state effect), given an already-loaded
configuration `cfg` (the key list of `config.mcpServers`): the sequential
per-server loop. -/
def connect_all (env : String → ServerBehavior) (cfg : List String)
    (st : ClientState) : ClientState :=
  cfg.foldl (connectAllStep env) st

/-- One iteration of `connect_all` on the exception channel: the try/except
body catches every exception `_connect_server` raises, so it is total. -/
def tryConnectServer (env : String → ServerBehavior) (st : ClientState)
    (server_name : String) : Except PyErr ClientState :=
  match connectServer env st server_name with
  | Except.ok st' => Except.ok st'
  | Except.error _ => Except.ok st

/-- `MultiServerClient.connect_all` on the exception channel: the loop over
the configured servers, each iteration catching its own failures. -/
def connect_allE (env : String → ServerBehavior) (cfg : List String)
    (st : ClientState) : Except PyErr ClientState :=
  cfg.foldlM (tryConnectServer env) st

/-- `{**existing_meta, "serverName": server_name}`. -/
def stampMeta (meta : List (String × String)) (server_name : String) :
    List (String × String) :=
  insertA meta "serverName" server_name

/-- `tool.model_copy(update={"meta": {**existing_meta, "serverName": s}})`. -/
def stampTool (server_name : String) (t : Tool) : Tool :=
  { t with meta := stampMeta t.meta server_name }

/-- `prompt.model_copy(update={"meta": ...})`. -/
def stampPrompt (server_name : String) (p : Prompt) : Prompt :=
  { p with meta := stampMeta p.meta server_name }

/-- `resource.model_copy(update={"uri": f"{s}:{uri}" if use_namespace else uri,
"meta": ...})`. -/
def stampResource (use_namespace : Bool) (server_name : String) (r : Resource) :
    Resource :=
  { r with
      uri := if use_namespace then server_name ++ ":" ++ r.uri else r.uri
      meta := stampMeta r.meta server_name }

/-- `template.model_copy(update={"uriTemplate": ..., "meta": ...})`. -/
def stampTemplate (use_namespace : Bool) (server_name : String)
    (t : ResourceTemplate) : ResourceTemplate :=
  { t with
      uriTemplate :=
        if use_namespace then server_name ++ ":" ++ t.uriTemplate else t.uriTemplate
      meta := stampMeta t.meta server_name }

/-- `MultiServerClient.list_tools`. -/
def list_tools (st : ClientState) (cursor : Option String) :
    Except PyErr ListToolsResult :=
  match cursor with
  | some _ =>
      Except.error (PyErr.valueError "Pagination not supported for multi-server aggregation")
  | none =>
      let all_tools : List Tool :=
        st.capabilities.foldl (fun acc p =>
          match p.2.tools with
          | some tr => acc ++ tr.tools.map (stampTool p.1)
          | none => acc) []
      Except.ok { tools := all_tools, nextCursor := none }

/-- `MultiServerClient.list_prompts`. -/
def list_prompts (st : ClientState) (cursor : Option String) :
    Except PyErr ListPromptsResult :=
  match cursor with
  | some _ =>
      Except.error (PyErr.valueError "Pagination not supported for multi-server aggregation")
  | none =>
      let all_prompts : List Prompt :=
        st.capabilities.foldl (fun acc p =>
          match p.2.prompts with
          | some pr => acc ++ pr.prompts.map (stampPrompt p.1)
          | none => acc) []
      Except.ok { prompts := all_prompts, nextCursor := none }

/-- `MultiServerClient.list_resources`. -/
def list_resources (st : ClientState) (cursor : Option String)
    (use_namespace : Bool) : Except PyErr ListResourcesResult :=
  match cursor with
  | some _ =>
      Except.error (PyErr.valueError "Pagination not supported for multi-server aggregation")
  | none =>
      let all_resources : List Resource :=
        st.capabilities.foldl (fun acc p =>
          match p.2.resources with
          | some rr => acc ++ rr.resources.map (stampResource use_namespace p.1)
          | none => acc) []
      Except.ok { resources := all_resources, nextCursor := none }

/-- `MultiServerClient.list_resource_templates`. -/
def list_resource_templates (st : ClientState) (cursor : Option String)
    (use_namespace : Bool) : Except PyErr ListResourceTemplatesResult :=
  match cursor with
  | some _ =>
      Except.error (PyErr.valueError "Pagination not supported for multi-server aggregation")
  | none =>
      let all_templates : List ResourceTemplate :=
        st.capabilities.foldl (fun acc p =>
          match p.2.resource_templates with
          | some tr => acc ++ tr.resourceTemplates.map (stampTemplate use_namespace p.1)
          | none => acc) []
      Except.ok { resourceTemplates := all_templates, nextCursor := none }

/-- `MultiServerClient._create_error_result`. -/
def create_error_result (error_message : String) : CallToolResult :=
  { contentText := [error_message], isError := true }

/-- Outcome of `call_tool` up to the session boundary: either a locally
synthesized `CallToolResult`, or the call was forwarded to a server's session. -/
inductive CallToolOutcome where
  | result (r : CallToolResult)
  | forwarded (server : String) (name : String)
  deriving DecidableEq, Repr

/-- `MultiServerClient.call_tool` (routing part). Mirrors the source:
`if not server_name` after `tool_to_server.get(name)` treats both a missing
key and an empty-string server name as unknown; the explicit-server path
checks membership in `sessions`, then reads `self.capabilities[server_name]`
unguarded (a `KeyError` if the key is missing), and `self.sessions[...]` on
the auto-route path is likewise unguarded. -/
def call_toolE (st : ClientState) (name : String) (server_name : Option String) :
    Except PyErr CallToolOutcome :=
  match server_name with
  | none =>
      match lookupA st.tool_to_server name with
      | none => Except.ok (CallToolOutcome.result (create_error_result ("Unknown tool: " ++ name)))
      | some srv =>
          if srv = "" then
            Except.ok (CallToolOutcome.result (create_error_result ("Unknown tool: " ++ name)))
          else if srv ∈ st.sessions then
            Except.ok (CallToolOutcome.forwarded srv name)
          else
            Except.error (PyErr.keyError srv)
  | some srv =>
      if srv ∈ st.sessions then
        match lookupA st.capabilities srv with
        | none => Except.error (PyErr.keyError srv)
        | some caps =>
            match caps.tools with
            | none =>
                Except.ok (CallToolOutcome.result (create_error_result
                  ("Server " ++ sq ++ srv ++ sq ++ " has no tools")))
            | some tr =>
                if name ∈ tr.tools.map Tool.name then
                  Except.ok (CallToolOutcome.forwarded srv name)
                else
                  Except.ok (CallToolOutcome.result (create_error_result
                    ("Tool " ++ sq ++ name ++ sq ++ " not found in server " ++ sq ++ srv ++ sq)))
      else
        Except.ok (CallToolOutcome.result (create_error_result ("Unknown server: " ++ srv)))

/-- `uri_str.split(":", 1)` on the character list: `none` when no colon occurs
(Python's `":" in uri_str` is false), otherwise the parts before and after
the leftmost colon. -/
def splitCharsAtFirst (sep : Char) : List Char → Option (List Char × List Char)
  | [] => none
  | c :: cs =>
      if c = sep then some ([], cs)
      else
        match splitCharsAtFirst sep cs with
        | some (l, r) => some (c :: l, r)
        | none => none

/-- `uri_str.split(":", 1)` as used by `read_resource`. -/
def splitFirstColon (s : String) : Option (String × String) :=
  match splitCharsAtFirst ':' s.data with
  | some (l, r) => some (⟨l⟩, ⟨r⟩)
  | none => none

/-- `MultiServerClient.read_resource` (routing part): returns the target
server and the URI string actually forwarded to it. -/
def read_resourceE (st : ClientState) (uri : String) (server_name : Option String) :
    Except PyErr (String × String) :=
  match server_name with
  | some srv =>
      if srv ∈ st.sessions then Except.ok (srv, uri)
      else Except.error (PyErr.mcpError (-32601) ("Unknown server: " ++ srv))
  | none =>
      match splitFirstColon uri with
      | some (potential_server, potential_uri) =>
          if potential_server ∈ st.sessions then
            Except.ok (potential_server, potential_uri)
          else
            Except.error (PyErr.mcpError (-32601)
              "Must specify server_name or use namespaced URI format (server:uri)")
      | none =>
          Except.error (PyErr.mcpError (-32601)
            "Must specify server_name or use namespaced URI format (server:uri)")

/-- `MultiServerClient.get_prompt` (routing part): returns the target server.
Mirrors the source: `if not server_name` after `prompt_to_server.get(name)`
treats a missing key and an empty-string server alike; the explicit path
checks `sessions` membership then reads `self.capabilities[server_name]`
unguarded; the auto path reads `self.sessions[server_name]` unguarded. -/
def get_promptE (st : ClientState) (name : String) (server_name : Option String) :
    Except PyErr String :=
  match server_name with
  | none =>
      match lookupA st.prompt_to_server name with
      | none => Except.error (PyErr.mcpError (-32601) ("Unknown prompt: " ++ name))
      | some srv =>
          if srv = "" then
            Except.error (PyErr.mcpError (-32601) ("Unknown prompt: " ++ name))
          else if srv ∈ st.sessions then
            Except.ok srv
          else
            Except.error (PyErr.keyError srv)
  | some srv =>
      if srv ∈ st.sessions then
        match lookupA st.capabilities srv with
        | none => Except.error (PyErr.keyError srv)
        | some caps =>
            match caps.prompts with
            | none =>
                Except.error (PyErr.mcpError (-32601)
                  ("Server " ++ sq ++ srv ++ sq ++ " has no prompts"))
            | some pr =>
                if name ∈ pr.prompts.map Prompt.name then Except.ok srv
                else
                  Except.error (PyErr.mcpError (-32601)
                    ("Prompt " ++ sq ++ name ++ sq ++ " not found in server " ++ sq ++ srv ++ sq))
      else
        Except.error (PyErr.mcpError (-32601) ("Unknown server: " ++ srv))

/-! ### Association-list and helper lemmas -/

theorem lookupA_insertA {α : Type} (m : List (String × α)) (k : String) (v : α)
    (k' : String) :
    lookupA (insertA m k v) k' = if k = k' then some v else lookupA m k' := by
  induction m with
  | nil => simp [insertA, lookupA]
  | cons hd tl ih =>
      obtain ⟨k₀, v₀⟩ := hd
      by_cases h : k₀ = k
      · subst h
        by_cases h' : k₀ = k' <;> simp [insertA, lookupA, h']
      · by_cases h' : k₀ = k'
        · subst h'
          have hne : k ≠ k₀ := fun hh => h hh.symm
          simp [insertA, lookupA, h, hne]
        · simp [insertA, lookupA, h, h', ih]

theorem mem_insertA {α : Type} {m : List (String × α)} {k : String} {v : α}
    {p : String × α} (h : p ∈ insertA m k v) : p ∈ m ∨ p = (k, v) := by
  induction m with
  | nil => simp [insertA] at h; simp [h]
  | cons hd tl ih =>
      obtain ⟨k₀, v₀⟩ := hd
      by_cases hk : k₀ = k
      · simp [insertA, hk] at h
        rcases h with h | h
        · right; simp [h]
        · left; simp [h]
      · simp [insertA, hk] at h
        rcases h with h | h
        · left; simp [h]
        · rcases ih h with h' | h'
          · left; simp [h']
          · right; exact h'

theorem lookupA_eq_none_iff {α : Type} (m : List (String × α)) (k : String) :
    lookupA m k = none ↔ k ∉ m.map Prod.fst := by
  induction m with
  | nil => simp [lookupA]
  | cons hd tl ih =>
      obtain ⟨k₀, v₀⟩ := hd
      by_cases h : k₀ = k
      · subst h
        simp [lookupA]
      · have hne : k ≠ k₀ := fun hh => h hh.symm
        simp [lookupA, h, ih, hne]

theorem lookupA_mem {α : Type} {m : List (String × α)} {k : String} {v : α}
    (h : lookupA m k = some v) : (k, v) ∈ m := by
  induction m with
  | nil => simp [lookupA] at h
  | cons hd tl ih =>
      obtain ⟨k₀, v₀⟩ := hd
      by_cases hk : k₀ = k
      · subst hk
        simp [lookupA] at h
        simp [h]
      · simp [lookupA, hk] at h
        simp [ih h]

theorem keys_insertA_of_not_mem {α : Type} {m : List (String × α)} {k : String}
    (v : α) (h : lookupA m k = none) :
    (insertA m k v).map Prod.fst = m.map Prod.fst ++ [k] := by
  induction m with
  | nil => simp [insertA]
  | cons hd tl ih =>
      obtain ⟨k₀, v₀⟩ := hd
      by_cases hk : k₀ = k
      · subst hk; simp [lookupA] at h
      · simp [lookupA, hk] at h
        simp [insertA, hk, ih h]

theorem insertKey_of_not_mem {l : List String} {k : String} (h : k ∉ l) :
    insertKey l k = l ++ [k] := by
  induction l with
  | nil => simp [insertKey]
  | cons hd tl ih =>
      simp at h
      simp [insertKey, Ne.symm h.1, ih h.2]

theorem mem_insertKey {l : List String} {k s : String} :
    s ∈ insertKey l k ↔ s ∈ l ∨ s = k := by
  induction l with
  | nil => simp [insertKey]
  | cons hd tl ih =>
      by_cases h : hd = k
      · subst h
        simp [insertKey]
        intro h; simp [h]
      · simp [insertKey, h, ih, or_assoc]

theorem lookupA_registerAll (names : List String) (m : List (String × String))
    (srv n : String) :
    lookupA (registerAll m names srv) n =
      if n ∈ names then some srv else lookupA m n := by
  induction names generalizing m with
  | nil => simp [registerAll]
  | cons nm rest ih =>
      show lookupA (registerAll (insertA m nm srv) rest srv) n = _
      rw [ih]
      by_cases h1 : n ∈ rest
      · simp [h1]
      · by_cases h2 : nm = n
        · simp [h1, h2, lookupA_insertA]
        · have hne : n ≠ nm := fun hh => h2 hh.symm
          simp [h1, h2, lookupA_insertA, hne]

theorem mem_registerAll {names : List String} {m : List (String × String)}
    {srv : String} {p : String × String} (h : p ∈ registerAll m names srv) :
    p ∈ m ∨ (p.1 ∈ names ∧ p.2 = srv) := by
  induction names generalizing m with
  | nil => exact Or.inl h
  | cons nm rest ih =>
      rcases ih h with h' | h'
      · rcases mem_insertA h' with h'' | h''
        · exact Or.inl h''
        · right
          constructor
          · simp [h'']
          · simp [h'']
      · right
        exact ⟨List.mem_cons_of_mem _ h'.1, h'.2⟩

theorem concatMapL_nil {α β : Type} (f : α → List β) : concatMapL f [] = [] := rfl

theorem foldl_append_eq_concatMapL {α β : Type} (f : α → List β)
    (g : List β → α → List β) (hg : ∀ acc a, g acc a = acc ++ f a) :
    ∀ (l : List α) (init : List β), l.foldl g init = init ++ concatMapL f l := by
  intro l
  induction l with
  | nil => intro init; simp [concatMapL]
  | cons a l ih =>
      intro init
      show List.foldl g (g init a) l = _
      rw [ih, hg, concatMapL, List.append_assoc]

/-! ### Step lemmas for the connect loop -/

/-- The tool names a server's tools query contributes to the routing table
(empty when the query raised). -/
def toolNamesOf (b : ServerBehavior) : List String :=
  match b.toolsResult with
  | some tr => tr.tools.map Tool.name
  | none => []

/-- The prompt names a server's prompts query contributes. -/
def promptNamesOf (b : ServerBehavior) : List String :=
  match b.promptsResult with
  | some pr => pr.prompts.map Prompt.name
  | none => []

theorem connectAllStep_of_ok {env : String → ServerBehavior} {c : String}
    (h : (env c).connectOk = true) (st : ClientState) :
    connectAllStep env st c =
      { sessions := insertKey st.sessions c
        capabilities := insertA st.capabilities c (discoverySnapshot env c)
        tool_to_server := registerAll st.tool_to_server (toolNamesOf (env c)) c
        prompt_to_server := registerAll st.prompt_to_server (promptNamesOf (env c)) c } := by
  cases htr : (env c).toolsResult <;> cases hpr : (env c).promptsResult <;>
    simp [connectAllStep, connectServer, h, htr, hpr, toolNamesOf, promptNamesOf, registerAll]

theorem connectAllStep_of_fail {env : String → ServerBehavior} {c : String}
    (h : (env c).connectOk = false) (st : ClientState) :
    connectAllStep env st c = st := by
  simp [connectAllStep, connectServer, h]

theorem connect_all_nil (env : String → ServerBehavior) (st : ClientState) :
    connect_all env [] st = st := rfl

theorem connect_all_cons (env : String → ServerBehavior) (c : String)
    (cfg : List String) (st : ClientState) :
    connect_all env (c :: cfg) st = connect_all env cfg (connectAllStep env st c) := rfl

theorem tryConnectServer_eq (env : String → ServerBehavior) (st : ClientState)
    (c : String) : tryConnectServer env st c = Except.ok (connectAllStep env st c) := by
  cases h : connectServer env st c <;> simp [tryConnectServer, connectAllStep, h]

/-- The `connect_all` loop never raises: its exception-channel run is `ok`
with exactly the state the pure loop computes (each iteration's try/except
catches everything `_connect_server` can raise). -/
theorem connect_allE_eq_ok (env : String → ServerBehavior) (cfg : List String)
    (st : ClientState) : connect_allE env cfg st = Except.ok (connect_all env cfg st) := by
  induction cfg generalizing st with
  | nil => rfl
  | cons c rest ih =>
      show tryConnectServer env st c >>= _ = _
      rw [tryConnectServer_eq]
      show connect_allE env rest (connectAllStep env st c) = _
      rw [ih, connect_all_cons]

/-! ### Global lemmas about the connect loop -/

theorem sessions_mono (env : String → ServerBehavior) (cfg : List String)
    (st : ClientState) :
    ∀ s ∈ st.sessions, s ∈ (connect_all env cfg st).sessions := by
  induction cfg generalizing st with
  | nil => intro s hs; exact hs
  | cons c rest ih =>
      intro s hs
      rw [connect_all_cons]
      apply ih
      cases h : (env c).connectOk
      · rw [connectAllStep_of_fail h]; exact hs
      · rw [connectAllStep_of_ok h]
        exact mem_insertKey.mpr (Or.inl hs)

theorem mem_sessions_of_success (env : String → ServerBehavior) (cfg : List String)
    (st : ClientState) (s : String) (hs : s ∈ cfg) (hok : (env s).connectOk = true) :
    s ∈ (connect_all env cfg st).sessions := by
  induction cfg generalizing st with
  | nil => cases hs
  | cons c rest ih =>
      rw [connect_all_cons]
      rcases List.mem_cons.mp hs with h | h
      · subst h
        apply sessions_mono
        rw [connectAllStep_of_ok hok]
        exact mem_insertKey.mpr (Or.inr rfl)
      · exact ih (connectAllStep env st c) h

theorem lookupA_capabilities_unchanged (env : String → ServerBehavior)
    (cfg : List String) (st : ClientState) (s : String)
    (h : ∀ c ∈ cfg, c = s → (env c).connectOk = false) :
    lookupA (connect_all env cfg st).capabilities s = lookupA st.capabilities s := by
  induction cfg generalizing st with
  | nil => rfl
  | cons c rest ih =>
      rw [connect_all_cons,
        ih _ (fun c' hc' => h c' (List.mem_cons_of_mem _ hc'))]
      cases hok : (env c).connectOk
      · rw [connectAllStep_of_fail hok]
      · rw [connectAllStep_of_ok hok]
        have hcs : c ≠ s := fun hh => by
          have := h c (List.mem_cons_self _ _) hh
          rw [this] at hok; cases hok
        simp [lookupA_insertA, hcs]

theorem lookupA_capabilities_success (env : String → ServerBehavior)
    (cfg : List String) (st : ClientState) (hnd : cfg.Nodup) (s : String)
    (hs : s ∈ cfg) (hok : (env s).connectOk = true) :
    lookupA (connect_all env cfg st).capabilities s = some (discoverySnapshot env s) := by
  induction cfg generalizing st with
  | nil => cases hs
  | cons c rest ih =>
      rw [connect_all_cons]
      rcases List.mem_cons.mp hs with h | h
      · subst h
        have hnotin : s ∉ rest := (List.nodup_cons.mp hnd).1
        rw [lookupA_capabilities_unchanged env rest _ s
          (fun c' hc' heq => absurd (heq ▸ hc') hnotin)]
        rw [connectAllStep_of_ok hok]
        simp [lookupA_insertA]
      · exact ih (connectAllStep env st c) (List.nodup_cons.mp hnd).2 h

theorem sessions_connect_all (env : String → ServerBehavior) (cfg : List String)
    (st : ClientState) (hnd : cfg.Nodup) (hdis : ∀ s ∈ cfg, s ∉ st.sessions) :
    (connect_all env cfg st).sessions =
      st.sessions ++ cfg.filter (fun s => (env s).connectOk) := by
  induction cfg generalizing st with
  | nil => simp [connect_all_nil]
  | cons c rest ih =>
      have hnd2 := (List.nodup_cons.mp hnd).2
      have hcnotin := (List.nodup_cons.mp hnd).1
      rw [connect_all_cons]
      cases hok : (env c).connectOk
      case false =>
        rw [connectAllStep_of_fail hok,
          ih st hnd2 (fun s hs => hdis s (List.mem_cons_of_mem _ hs))]
        simp [List.filter_cons, hok]
      case true =>
        have hsess : (connectAllStep env st c).sessions = insertKey st.sessions c := by
          rw [connectAllStep_of_ok hok]
        have hc : c ∉ st.sessions := hdis c (List.mem_cons_self _ _)
        have hdis2 : ∀ s ∈ rest, s ∉ (connectAllStep env st c).sessions := by
          intro s hs hmem
          rw [hsess, insertKey_of_not_mem hc] at hmem
          rcases List.mem_append.mp hmem with h' | h'
          · exact hdis s (List.mem_cons_of_mem _ hs) h'
          · simp at h'
            exact hcnotin (h' ▸ hs)
        rw [ih (connectAllStep env st c) hnd2 hdis2, hsess, insertKey_of_not_mem hc]
        simp [List.filter_cons, hok]

theorem capkeys_connect_all (env : String → ServerBehavior) (cfg : List String)
    (st : ClientState) (hnd : cfg.Nodup)
    (hdis : ∀ s ∈ cfg, lookupA st.capabilities s = none) :
    (connect_all env cfg st).capabilities.map Prod.fst =
      st.capabilities.map Prod.fst ++ cfg.filter (fun s => (env s).connectOk) := by
  induction cfg generalizing st with
  | nil => simp [connect_all_nil]
  | cons c rest ih =>
      have hnd2 := (List.nodup_cons.mp hnd).2
      have hcnotin := (List.nodup_cons.mp hnd).1
      rw [connect_all_cons]
      cases hok : (env c).connectOk
      case false =>
        rw [connectAllStep_of_fail hok,
          ih st hnd2 (fun s hs => hdis s (List.mem_cons_of_mem _ hs))]
        simp [List.filter_cons, hok]
      case true =>
        have hcaps : (connectAllStep env st c).capabilities =
            insertA st.capabilities c (discoverySnapshot env c) := by
          rw [connectAllStep_of_ok hok]
        have hc : lookupA st.capabilities c = none := hdis c (List.mem_cons_self _ _)
        have hdis2 : ∀ s ∈ rest, lookupA (connectAllStep env st c).capabilities s = none := by
          intro s hs
          have hcs : c ≠ s := fun hh => hcnotin (hh ▸ hs)
          rw [hcaps, lookupA_insertA]
          simp [hcs]
          exact hdis s (List.mem_cons_of_mem _ hs)
        rw [ih (connectAllStep env st c) hnd2 hdis2, hcaps,
          keys_insertA_of_not_mem _ hc]
        simp [List.filter_cons, hok]

theorem tool_bindings_connect_all (env : String → ServerBehavior) (cfg : List String)
    (st : ClientState) :
    ∀ p ∈ (connect_all env cfg st).tool_to_server,
      p ∈ st.tool_to_server ∨
        (p.2 ∈ cfg ∧ (env p.2).connectOk = true ∧
          ∃ tr, (env p.2).toolsResult = some tr ∧ p.1 ∈ tr.tools.map Tool.name) := by
  induction cfg generalizing st with
  | nil => intro p hp; exact Or.inl hp
  | cons c rest ih =>
      intro p hp
      rw [connect_all_cons] at hp
      rcases ih _ p hp with h | h
      · cases hok : (env c).connectOk
        · rw [connectAllStep_of_fail hok] at h
          exact Or.inl h
        · rw [connectAllStep_of_ok hok] at h
          rcases mem_registerAll h with h' | h'
          · exact Or.inl h'
          · right
            obtain ⟨hmem, heq⟩ := h'
            rw [heq]
            refine ⟨List.mem_cons_self _ _, hok, ?_⟩
            cases htr : (env c).toolsResult with
            | none => simp only [toolNamesOf, htr] at hmem; cases hmem
            | some tr =>
                simp only [toolNamesOf, htr] at hmem
                exact ⟨tr, rfl, hmem⟩
      · exact Or.inr ⟨List.mem_cons_of_mem _ h.1, h.2⟩

theorem prompt_bindings_connect_all (env : String → ServerBehavior) (cfg : List String)
    (st : ClientState) :
    ∀ p ∈ (connect_all env cfg st).prompt_to_server,
      p ∈ st.prompt_to_server ∨
        (p.2 ∈ cfg ∧ (env p.2).connectOk = true ∧
          ∃ pr, (env p.2).promptsResult = some pr ∧ p.1 ∈ pr.prompts.map Prompt.name) := by
  induction cfg generalizing st with
  | nil => intro p hp; exact Or.inl hp
  | cons c rest ih =>
      intro p hp
      rw [connect_all_cons] at hp
      rcases ih _ p hp with h | h
      · cases hok : (env c).connectOk
        · rw [connectAllStep_of_fail hok] at h
          exact Or.inl h
        · rw [connectAllStep_of_ok hok] at h
          rcases mem_registerAll h with h' | h'
          · exact Or.inl h'
          · right
            obtain ⟨hmem, heq⟩ := h'
            rw [heq]
            refine ⟨List.mem_cons_self _ _, hok, ?_⟩
            cases hpr : (env c).promptsResult with
            | none => simp only [promptNamesOf, hpr] at hmem; cases hmem
            | some pr =>
                simp only [promptNamesOf, hpr] at hmem
                exact ⟨pr, rfl, hmem⟩
      · exact Or.inr ⟨List.mem_cons_of_mem _ h.1, h.2⟩

/-! ### Namespaced-URI parsing lemmas -/

theorem splitCharsAtFirst_append (u : List Char) :
    ∀ (p : List Char), ':' ∉ p →
      splitCharsAtFirst ':' (p ++ ':' :: u) = some (p, u) := by
  intro p
  induction p with
  | nil => intro _; simp [splitCharsAtFirst]
  | cons c cs ih =>
      intro h
      simp at h
      have hne : ¬ c = ':' := fun hh => h.1 hh.symm
      show splitCharsAtFirst ':' (c :: (cs ++ ':' :: u)) = _
      rw [splitCharsAtFirst, if_neg hne, ih (by simpa using h.2)]

theorem splitFirstColon_namespaced (p u : String) (h : ':' ∉ p.data) :
    splitFirstColon (p ++ ":" ++ u) = some (p, u) := by
  have hcolon : (":" : String).data = [':'] := rfl
  have hdata : (p ++ ":" ++ u).data = p.data ++ ':' :: u.data := by
    rw [String.data_append, String.data_append, hcolon]
    simp
  rw [splitFirstColon, hdata, splitCharsAtFirst_append u.data p.data h]

/-! ### Listing operations as concatenations -/

/-- The tools the aggregated listing draws from one `capabilities` entry. -/
def toolEntriesOf (p : String × ServerCapabilities) : List Tool :=
  match p.2.tools with
  | some tr => tr.tools.map (stampTool p.1)
  | none => []

/-- The prompts the aggregated listing draws from one `capabilities` entry. -/
def promptEntriesOf (p : String × ServerCapabilities) : List Prompt :=
  match p.2.prompts with
  | some pr => pr.prompts.map (stampPrompt p.1)
  | none => []

/-- The resources the aggregated listing draws from one `capabilities` entry. -/
def resourceEntriesOf (use_namespace : Bool) (p : String × ServerCapabilities) :
    List Resource :=
  match p.2.resources with
  | some rr => rr.resources.map (stampResource use_namespace p.1)
  | none => []

/-- The templates the aggregated listing draws from one `capabilities` entry. -/
def templateEntriesOf (use_namespace : Bool) (p : String × ServerCapabilities) :
    List ResourceTemplate :=
  match p.2.resource_templates with
  | some tr => tr.resourceTemplates.map (stampTemplate use_namespace p.1)
  | none => []

theorem list_tools_none_eq (st : ClientState) :
    list_tools st none =
      Except.ok { tools := concatMapL toolEntriesOf st.capabilities, nextCursor := none } := by
  show Except.ok _ = _
  rw [foldl_append_eq_concatMapL toolEntriesOf _ ?hg]
  · simp
  case hg =>
    intro acc a
    cases h : a.2.tools <;> simp [toolEntriesOf, h]

theorem list_prompts_none_eq (st : ClientState) :
    list_prompts st none =
      Except.ok { prompts := concatMapL promptEntriesOf st.capabilities, nextCursor := none } := by
  show Except.ok _ = _
  rw [foldl_append_eq_concatMapL promptEntriesOf _ ?hg]
  · simp
  case hg =>
    intro acc a
    cases h : a.2.prompts <;> simp [promptEntriesOf, h]

theorem list_resources_none_eq (st : ClientState) (use_namespace : Bool) :
    list_resources st none use_namespace =
      Except.ok { resources := concatMapL (resourceEntriesOf use_namespace) st.capabilities,
                  nextCursor := none } := by
  show Except.ok _ = _
  rw [foldl_append_eq_concatMapL (resourceEntriesOf use_namespace) _ ?hg]
  · simp
  case hg =>
    intro acc a
    cases h : a.2.resources <;> simp [resourceEntriesOf, h]

theorem list_resource_templates_none_eq (st : ClientState) (use_namespace : Bool) :
    list_resource_templates st none use_namespace =
      Except.ok { resourceTemplates :=
                    concatMapL (templateEntriesOf use_namespace) st.capabilities,
                  nextCursor := none } := by
  show Except.ok _ = _
  rw [foldl_append_eq_concatMapL (templateEntriesOf use_namespace) _ ?hg]
  · simp
  case hg =>
    intro acc a
    cases h : a.2.resource_templates <;> simp [templateEntriesOf, h]

/-! ### Concrete demonstration environments (used by witnesses) -/

/-- Demo behaviour: a server advertising tool `x`, resource
`inventory://overview`, and prompt `p`; templates query raises. -/
def behA : ServerBehavior :=
  { connectOk := true
    toolsResult := some { tools := [{ name := "x", meta := [("k", "v")] }], nextCursor := none }
    resourcesResult := some { resources := [{ name := "r", uri := "inventory://overview", meta := [] }], nextCursor := none }
    templatesResult := none
    promptsResult := some { prompts := [{ name := "p", meta := [] }], nextCursor := none } }

/-- Demo behaviour: a server advertising tools `x` and `y` and prompt `p`
(colliding with `behA` on `x` and `p`); other queries raise. -/
def behB : ServerBehavior :=
  { connectOk := true
    toolsResult := some { tools := [{ name := "x", meta := [] }, { name := "y", meta := [] }], nextCursor := none }
    resourcesResult := none
    templatesResult := none
    promptsResult := some { prompts := [{ name := "p", meta := [] }], nextCursor := none } }

/-- Demo behaviour: spawn/initialize fails. -/
def behFail : ServerBehavior :=
  { connectOk := false
    toolsResult := none
    resourcesResult := none
    templatesResult := none
    promptsResult := none }

/-- Demo environment: `A` behaves as `behA`, `B` as `behB`, others fail. -/
def demoEnv : String → ServerBehavior := fun s =>
  if s = "A" then behA else if s = "B" then behB else behFail

/-- Demo environment for a later run in which only `A` still connects. -/
def demoEnvBFail : String → ServerBehavior := fun s =>
  if s = "A" then behA else behFail

/-- State after `connect_all` on config `[A, B]` against `demoEnv`. -/
def demoState : ClientState := connect_all demoEnv ["A", "B"] freshState

/-! ### Claims -/

/-- C9: passing a non-null cursor to any of the four `list_*` operations
raises `ValueError` (independently of the client state, i.e. before any
state is consulted), and with cursor `None` none of the four fails. -/
theorem C9_cursor_rejection (st : ClientState) (c : String) (un : Bool) :
    list_tools st (some c) =
        Except.error (PyErr.valueError "Pagination not supported for multi-server aggregation")
    ∧ list_prompts st (some c) =
        Except.error (PyErr.valueError "Pagination not supported for multi-server aggregation")
    ∧ list_resources st (some c) un =
        Except.error (PyErr.valueError "Pagination not supported for multi-server aggregation")
    ∧ list_resource_templates st (some c) un =
        Except.error (PyErr.valueError "Pagination not supported for multi-server aggregation")
    ∧ (∃ r, list_tools st none = Except.ok r)
    ∧ (∃ r, list_prompts st none = Except.ok r)
    ∧ (∃ r, list_resources st none un = Except.ok r)
    ∧ (∃ r, list_resource_templates st none un = Except.ok r) :=
  ⟨rfl, rfl, rfl, rfl, ⟨_, rfl⟩, ⟨_, rfl⟩, ⟨_, rfl⟩, ⟨_, rfl⟩⟩

/-- C2: `read_resource` resolution. With an explicit `server_name` the URI is
forwarded verbatim (no namespace stripping) when the server is connected, and
an `McpError` "Unknown server" is raised otherwise. With `server_name = None`,
the URI is split at its leftmost colon; if the left segment is a connected
server the remainder is forwarded to it; otherwise (no colon, or unknown left
segment) an `McpError` "Must specify server_name or use namespaced URI format"
is raised. -/
theorem C2_read_resource_resolution (st : ClientState) (uri : String) :
    (∀ srv, srv ∈ st.sessions →
      read_resourceE st uri (some srv) = Except.ok (srv, uri))
    ∧ (∀ srv, srv ∉ st.sessions →
      read_resourceE st uri (some srv) =
        Except.error (PyErr.mcpError (-32601) ("Unknown server: " ++ srv)))
    ∧ (∀ p rest, splitFirstColon uri = some (p, rest) → p ∈ st.sessions →
      read_resourceE st uri none = Except.ok (p, rest))
    ∧ (splitFirstColon uri = none →
      read_resourceE st uri none =
        Except.error (PyErr.mcpError (-32601)
          "Must specify server_name or use namespaced URI format (server:uri)"))
    ∧ (∀ p rest, splitFirstColon uri = some (p, rest) → p ∉ st.sessions →
      read_resourceE st uri none =
        Except.error (PyErr.mcpError (-32601)
          "Must specify server_name or use namespaced URI format (server:uri)")) := by
  refine ⟨?_, ?_, ?_, ?_, ?_⟩
  · intro srv h; simp [read_resourceE, h]
  · intro srv h; simp [read_resourceE, h]
  · intro p rest hsplit h; simp [read_resourceE, hsplit, h]
  · intro hsplit; simp [read_resourceE, hsplit]
  · intro p rest hsplit h; simp [read_resourceE, hsplit, h]

/-- Witness for C2 at a concrete state: auto-routing a namespaced URI, and
an unknown explicit server. -/
theorem C2_witness :
    read_resourceE demoState "A:inventory://overview" none =
      Except.ok ("A", "inventory://overview")
    ∧ read_resourceE demoState "file:///x" (some "Z") =
      Except.error (PyErr.mcpError (-32601) ("Unknown server: Z")) := by
  obtain ⟨h1, h2, h3, h4, h5⟩ := C2_read_resource_resolution demoState "A:inventory://overview"
  obtain ⟨g1, g2, g3, g4, g5⟩ := C2_read_resource_resolution demoState "file:///x"
  exact ⟨h3 "A" "inventory://overview" (by decide) (by decide), g2 "Z" (by decide)⟩

/-- C3: `call_tool` signals every routing failure as an error-shaped
`CallToolResult` (`isError = True`), never as a raised exception: an
auto-routed name absent from `tool_to_server` yields "Unknown tool"; an
explicit server absent from `sessions` yields "Unknown server"; an explicit
server whose snapshot has no tools, or whose tool list lacks the name, yields
the corresponding error result. Successful resolution forwards to the
session (the only channel on which provider-level failures can then arise). -/
theorem C3_call_tool_error_shaped (st : ClientState) (name : String) :
    (lookupA st.tool_to_server name = none →
      call_toolE st name none =
        Except.ok (CallToolOutcome.result (create_error_result ("Unknown tool: " ++ name)))
      ∧ (create_error_result ("Unknown tool: " ++ name)).isError = true)
    ∧ (∀ srv, srv ∉ st.sessions →
      call_toolE st name (some srv) =
        Except.ok (CallToolOutcome.result (create_error_result ("Unknown server: " ++ srv)))
      ∧ (create_error_result ("Unknown server: " ++ srv)).isError = true)
    ∧ (∀ srv caps, srv ∈ st.sessions → lookupA st.capabilities srv = some caps →
        caps.tools = none →
      call_toolE st name (some srv) =
        Except.ok (CallToolOutcome.result (create_error_result
          ("Server " ++ sq ++ srv ++ sq ++ " has no tools"))))
    ∧ (∀ srv caps tr, srv ∈ st.sessions → lookupA st.capabilities srv = some caps →
        caps.tools = some tr → name ∉ tr.tools.map Tool.name →
      call_toolE st name (some srv) =
        Except.ok (CallToolOutcome.result (create_error_result
          ("Tool " ++ sq ++ name ++ sq ++ " not found in server " ++ sq ++ srv ++ sq))))
    ∧ (∀ srv caps tr, srv ∈ st.sessions → lookupA st.capabilities srv = some caps →
        caps.tools = some tr → name ∈ tr.tools.map Tool.name →
      call_toolE st name (some srv) = Except.ok (CallToolOutcome.forwarded srv name)) := by
  refine ⟨?_, ?_, ?_, ?_, ?_⟩
  · intro h; exact ⟨by simp [call_toolE, h], rfl⟩
  · intro srv h; exact ⟨by simp [call_toolE, h], rfl⟩
  · intro srv caps hs hcaps htools; simp [call_toolE, hs, hcaps, htools]
  · intro srv caps tr hs hcaps htools hname; simp [call_toolE, hs, hcaps, htools, hname]
  · intro srv caps tr hs hcaps htools hname; simp [call_toolE, hs, hcaps, htools, hname]

/-- Witness for C3 at a concrete state: unknown auto-routed tool, and a tool
missing from an explicitly named server. -/
theorem C3_witness :
    call_toolE demoState "z" none =
      Except.ok (CallToolOutcome.result (create_error_result "Unknown tool: z"))
    ∧ call_toolE demoState "y" (some "A") =
      Except.ok (CallToolOutcome.result (create_error_result
        ("Tool " ++ sq ++ "y" ++ sq ++ " not found in server " ++ sq ++ "A" ++ sq))) := by
  obtain ⟨h1, h2, h3, h4, h5⟩ := C3_call_tool_error_shaped demoState "z"
  obtain ⟨g1, g2, g3, g4, g5⟩ := C3_call_tool_error_shaped demoState "y"
  refine ⟨(h1 (by decide)).1, ?_⟩
  exact g4 "A" (discoverySnapshot demoEnv "A") (behA.toolsResult.getD ⟨[], none⟩)
    (by decide) (by decide) (by decide) (by decide)

/-- C4: `get_prompt` signals every routing failure as a raised `McpError`:
auto-routed name absent from `prompt_to_server` raises "Unknown prompt";
explicit server absent from `sessions` raises "Unknown server"; an explicit
server whose snapshot has no prompts, or whose prompt list lacks the name,
raises the corresponding `McpError`; and on successful resolution the call
is forwarded to the provider's session (whose result is returned as-is). -/
theorem C4_get_prompt_raises (st : ClientState) (name : String) :
    (lookupA st.prompt_to_server name = none →
      get_promptE st name none =
        Except.error (PyErr.mcpError (-32601) ("Unknown prompt: " ++ name)))
    ∧ (∀ srv, srv ∉ st.sessions →
      get_promptE st name (some srv) =
        Except.error (PyErr.mcpError (-32601) ("Unknown server: " ++ srv)))
    ∧ (∀ srv caps, srv ∈ st.sessions → lookupA st.capabilities srv = some caps →
        caps.prompts = none →
      get_promptE st name (some srv) =
        Except.error (PyErr.mcpError (-32601)
          ("Server " ++ sq ++ srv ++ sq ++ " has no prompts")))
    ∧ (∀ srv caps pr, srv ∈ st.sessions → lookupA st.capabilities srv = some caps →
        caps.prompts = some pr → name ∉ pr.prompts.map Prompt.name →
      get_promptE st name (some srv) =
        Except.error (PyErr.mcpError (-32601)
          ("Prompt " ++ sq ++ name ++ sq ++ " not found in server " ++ sq ++ srv ++ sq)))
    ∧ (∀ srv caps pr, srv ∈ st.sessions → lookupA st.capabilities srv = some caps →
        caps.prompts = some pr → name ∈ pr.prompts.map Prompt.name →
      get_promptE st name (some srv) = Except.ok srv) := by
  refine ⟨?_, ?_, ?_, ?_, ?_⟩
  · intro h; simp [get_promptE, h]
  · intro srv h; simp [get_promptE, h]
  · intro srv caps hs hcaps hpr; simp [get_promptE, hs, hcaps, hpr]
  · intro srv caps pr hs hcaps hpr hname; simp [get_promptE, hs, hcaps, hpr, hname]
  · intro srv caps pr hs hcaps hpr hname; simp [get_promptE, hs, hcaps, hpr, hname]

/-- Witness for C4 at a concrete state: unknown auto-routed prompt, and a
server with no prompts snapshot. -/
theorem C4_witness :
    get_promptE demoState "q" none =
      Except.error (PyErr.mcpError (-32601) "Unknown prompt: q")
    ∧ get_promptE demoState "p" (some "A") = Except.ok "A" := by
  obtain ⟨h1, h2, h3, h4, h5⟩ := C4_get_prompt_raises demoState "q"
  obtain ⟨g1, g2, g3, g4, g5⟩ := C4_get_prompt_raises demoState "p"
  refine ⟨h1 (by decide), ?_⟩
  exact g5 "A" (discoverySnapshot demoEnv "A") (behA.promptsResult.getD ⟨[], none⟩)
    (by decide) (by decide) (by decide) (by decide)

theorem step_tool_map_ok {env : String → ServerBehavior} {c : String}
    (h : (env c).connectOk = true) (st : ClientState) :
    (connectAllStep env st c).tool_to_server =
      registerAll st.tool_to_server (toolNamesOf (env c)) c := by
  rw [connectAllStep_of_ok h]

theorem step_prompt_map_ok {env : String → ServerBehavior} {c : String}
    (h : (env c).connectOk = true) (st : ClientState) :
    (connectAllStep env st c).prompt_to_server =
      registerAll st.prompt_to_server (promptNamesOf (env c)) c := by
  rw [connectAllStep_of_ok h]

theorem mem_concatMapL {α β : Type} {f : α → List β} {l : List α} {a : α} {b : β}
    (ha : a ∈ l) (hb : b ∈ f a) : b ∈ concatMapL f l := by
  induction l with
  | nil => cases ha
  | cons x xs ih =>
      rcases List.mem_cons.mp ha with h | h
      · subst h
        exact List.mem_append.mpr (Or.inl hb)
      · exact List.mem_append.mpr (Or.inr (ih h))

/-- C5: collision resolution is last-write-wins and order-dependent. When
providers `A` then `B` connect in that order and both advertise a tool named
`n` (resp. a prompt named `q`), the tool (prompt) routing table afterwards
maps the name to `B`; connecting in the reverse order maps it to `A`. The
collision is only logged: `connect_all` still completes normally. -/
theorem C5_last_write_wins (env : String → ServerBehavior) (A B n q : String)
    (hokA : (env A).connectOk = true) (hokB : (env B).connectOk = true)
    (trA trB : ListToolsResult)
    (htrA : (env A).toolsResult = some trA) (hnA : n ∈ trA.tools.map Tool.name)
    (htrB : (env B).toolsResult = some trB) (hnB : n ∈ trB.tools.map Tool.name)
    (prA prB : ListPromptsResult)
    (hprA : (env A).promptsResult = some prA) (hqA : q ∈ prA.prompts.map Prompt.name)
    (hprB : (env B).promptsResult = some prB) (hqB : q ∈ prB.prompts.map Prompt.name) :
    lookupA (connect_all env [A, B] freshState).tool_to_server n = some B
    ∧ lookupA (connect_all env [B, A] freshState).tool_to_server n = some A
    ∧ lookupA (connect_all env [A, B] freshState).prompt_to_server q = some B
    ∧ lookupA (connect_all env [B, A] freshState).prompt_to_server q = some A
    ∧ connect_allE env [A, B] freshState = Except.ok (connect_all env [A, B] freshState) := by
  refine ⟨?_, ?_, ?_, ?_, connect_allE_eq_ok env [A, B] freshState⟩
  · show lookupA (connectAllStep env (connectAllStep env freshState A) B).tool_to_server n = _
    rw [step_tool_map_ok hokB, lookupA_registerAll]
    simp [toolNamesOf, htrB, hnB]
  · show lookupA (connectAllStep env (connectAllStep env freshState B) A).tool_to_server n = _
    rw [step_tool_map_ok hokA, lookupA_registerAll]
    simp [toolNamesOf, htrA, hnA]
  · show lookupA (connectAllStep env (connectAllStep env freshState A) B).prompt_to_server q = _
    rw [step_prompt_map_ok hokB, lookupA_registerAll]
    simp [promptNamesOf, hprB, hqB]
  · show lookupA (connectAllStep env (connectAllStep env freshState B) A).prompt_to_server q = _
    rw [step_prompt_map_ok hokA, lookupA_registerAll]
    simp [promptNamesOf, hprA, hqA]

/-- Witness for C5: `A` and `B` both advertise tool `x` and prompt `p`. -/
theorem C5_witness :
    lookupA (connect_all demoEnv ["A", "B"] freshState).tool_to_server "x" = some "B"
    ∧ lookupA (connect_all demoEnv ["B", "A"] freshState).tool_to_server "x" = some "A"
    ∧ lookupA (connect_all demoEnv ["A", "B"] freshState).prompt_to_server "p" = some "B" := by
  have h := C5_last_write_wins demoEnv "A" "B" "x" "p" (by decide) (by decide)
    { tools := [{ name := "x", meta := [("k", "v")] }], nextCursor := none }
    { tools := [{ name := "x", meta := [] }, { name := "y", meta := [] }], nextCursor := none }
    (by decide) (by decide) (by decide) (by decide)
    { prompts := [{ name := "p", meta := [] }], nextCursor := none }
    { prompts := [{ name := "p", meta := [] }], nextCursor := none }
    (by decide) (by decide) (by decide) (by decide)
  exact ⟨h.1, h.2.1, h.2.2.1⟩

/-- C6: each `list_*` result is exactly the concatenation, in
capabilities-iteration order then per-snapshot order, of the stamped entries
of every connected server's snapshot of that kind (hence identical across
repeated calls against unchanged state, the model being pure); the stamp
merges the entry's pre-existing meta with `serverName ↦ owning server`
without touching any other key; resources/templates get a `server:`-prefixed
URI exactly when `use_namespace` is true (meta still attached when false);
and tool/prompt stamping never changes the `name` field. -/
theorem C6_listing_postcondition (st : ClientState) :
    (list_tools st none =
      Except.ok { tools := concatMapL toolEntriesOf st.capabilities, nextCursor := none })
    ∧ (list_prompts st none =
      Except.ok { prompts := concatMapL promptEntriesOf st.capabilities, nextCursor := none })
    ∧ (∀ un, list_resources st none un =
      Except.ok { resources := concatMapL (resourceEntriesOf un) st.capabilities,
                  nextCursor := none })
    ∧ (∀ un, list_resource_templates st none un =
      Except.ok { resourceTemplates := concatMapL (templateEntriesOf un) st.capabilities,
                  nextCursor := none })
    ∧ (∀ m srv, lookupA (stampMeta m srv) "serverName" = some srv)
    ∧ (∀ m srv k, k ≠ "serverName" → lookupA (stampMeta m srv) k = lookupA m k)
    ∧ (∀ srv t, (stampTool srv t).name = t.name)
    ∧ (∀ srv pp, (stampPrompt srv pp).name = pp.name)
    ∧ (∀ srv r, (stampResource true srv r).uri = srv ++ ":" ++ r.uri)
    ∧ (∀ srv r, (stampResource false srv r).uri = r.uri
        ∧ (stampResource false srv r).meta = stampMeta r.meta srv)
    ∧ (∀ srv t, (stampTemplate true srv t).uriTemplate = srv ++ ":" ++ t.uriTemplate)
    ∧ (∀ srv t, (stampTemplate false srv t).uriTemplate = t.uriTemplate
        ∧ (stampTemplate false srv t).meta = stampMeta t.meta srv) := by
  refine ⟨list_tools_none_eq st, list_prompts_none_eq st,
    fun un => list_resources_none_eq st un,
    fun un => list_resource_templates_none_eq st un, ?_, ?_, ?_, ?_, ?_, ?_, ?_, ?_⟩
  · intro m srv
    rw [stampMeta, lookupA_insertA]
    simp
  · intro m srv k hk
    rw [stampMeta, lookupA_insertA, if_neg (fun h => hk h.symm)]
  · intro srv t; rfl
  · intro srv pp; rfl
  · intro srv r; simp [stampResource]
  · intro srv r; exact ⟨by simp [stampResource], rfl⟩
  · intro srv t; simp [stampTemplate]
  · intro srv t; exact ⟨by simp [stampTemplate], rfl⟩

/-- Witness for C6: the meta merge at a concrete meta map keeps the
pre-existing key `k` and adds `serverName`. -/
theorem C6_witness :
    lookupA (stampMeta [("k", "v")] "A") "serverName" = some "A"
    ∧ lookupA (stampMeta [("k", "v")] "A") "k" = some "v" := by
  obtain ⟨h1, h2, h3, h4, h5, h6, hrest⟩ := C6_listing_postcondition freshState
  refine ⟨h5 [("k", "v")] "A", ?_⟩
  rw [h6 [("k", "v")] "A" "k" (by decide)]
  decide

/-- C8: namespacing round-trip. For a connected server `p` whose name has no
colon and a resource `r` with URI `u` in `p`'s snapshot: the namespaced
listing entry for `r` has URI exactly `p:u` and occurs in the aggregated
listing, and `read_resource` on `p:u` with no explicit server splits at the
leftmost colon, recovering exactly the pair `(p, u)` (target `p`, forwarded
URI `u`). -/
theorem C8_namespacing_roundtrip (st : ClientState) (p u : String) (r : Resource)
    (hp : p ∈ st.sessions) (hc : ':' ∉ p.data) (hru : r.uri = u)
    (caps : ServerCapabilities) (rr : ListResourcesResult)
    (hcaps : lookupA st.capabilities p = some caps) (hrr : caps.resources = some rr)
    (hr : r ∈ rr.resources) :
    (stampResource true p r).uri = p ++ ":" ++ u
    ∧ stampResource true p r ∈ concatMapL (resourceEntriesOf true) st.capabilities
    ∧ list_resources st none true =
        Except.ok { resources := concatMapL (resourceEntriesOf true) st.capabilities,
                    nextCursor := none }
    ∧ read_resourceE st (p ++ ":" ++ u) none = Except.ok (p, u) := by
  refine ⟨by simp [stampResource, hru], ?_, list_resources_none_eq st true, ?_⟩
  · refine mem_concatMapL (lookupA_mem hcaps) ?_
    simp only [resourceEntriesOf, hrr]
    exact List.mem_map_of_mem _ hr
  · simp [read_resourceE, splitFirstColon_namespaced p u hc, hp]

/-- Witness for C8: the round-trip at `p = A`, `u = inventory://overview`. -/
theorem C8_witness :
    read_resourceE demoState ("A" ++ ":" ++ "inventory://overview") none =
      Except.ok ("A", "inventory://overview") := by
  have h := C8_namespacing_roundtrip demoState "A" "inventory://overview"
    { name := "r", uri := "inventory://overview", meta := [] }
    (by decide) (by decide) (by decide)
    (discoverySnapshot demoEnv "A")
    { resources := [{ name := "r", uri := "inventory://overview", meta := [] }], nextCursor := none }
    (by decide) (by decide) (by decide)
  exact h.2.2.2

/-- C1: graceful discovery degradation. From a fresh client with a loaded
configuration (distinct server names, as dictionary keys are), `connect_all`
never raises; the registered sessions (and snapshot keys) are exactly the
configured servers whose connection and initialization succeeded, in order;
a successfully connected server's snapshot records each capability kind as
exactly that query's result, each of the four queries independently of its
siblings (`none` exactly when that query failed, the provider remaining
registered); and a failed provider appears nowhere: not in `sessions`, not
in `capabilities`, and not as a value of either routing table. -/
theorem C1_graceful_degradation (env : String → ServerBehavior) (cfg : List String)
    (hnd : cfg.Nodup) :
    connect_allE env cfg freshState = Except.ok (connect_all env cfg freshState)
    ∧ (connect_all env cfg freshState).sessions =
        cfg.filter (fun s => (env s).connectOk)
    ∧ (connect_all env cfg freshState).capabilities.map Prod.fst =
        cfg.filter (fun s => (env s).connectOk)
    ∧ (∀ s ∈ cfg, (env s).connectOk = true →
        s ∈ (connect_all env cfg freshState).sessions
        ∧ lookupA (connect_all env cfg freshState).capabilities s =
            some (discoverySnapshot env s)
        ∧ (discoverySnapshot env s).tools = (env s).toolsResult
        ∧ (discoverySnapshot env s).resources = (env s).resourcesResult
        ∧ (discoverySnapshot env s).resource_templates = (env s).templatesResult
        ∧ (discoverySnapshot env s).prompts = (env s).promptsResult)
    ∧ (∀ s ∈ cfg, (env s).connectOk = false →
        s ∉ (connect_all env cfg freshState).sessions
        ∧ lookupA (connect_all env cfg freshState).capabilities s = none
        ∧ (∀ t srv, (t, srv) ∈ (connect_all env cfg freshState).tool_to_server → srv ≠ s)
        ∧ (∀ t srv, (t, srv) ∈ (connect_all env cfg freshState).prompt_to_server → srv ≠ s)) := by
  have hsess : (connect_all env cfg freshState).sessions =
      cfg.filter (fun s => (env s).connectOk) := by
    rw [sessions_connect_all env cfg freshState hnd (fun s hs h => (List.not_mem_nil s) h)]
    rfl
  have hkeys : (connect_all env cfg freshState).capabilities.map Prod.fst =
      cfg.filter (fun s => (env s).connectOk) := by
    rw [capkeys_connect_all env cfg freshState hnd (fun s hs => rfl)]
    rfl
  refine ⟨connect_allE_eq_ok env cfg freshState, hsess, hkeys, ?_, ?_⟩
  · intro s hs hok
    exact ⟨mem_sessions_of_success env cfg freshState s hs hok,
      lookupA_capabilities_success env cfg freshState hnd s hs hok, rfl, rfl, rfl, rfl⟩
  · intro s hs hok
    have hnotfilter : s ∉ cfg.filter (fun s => (env s).connectOk) := by
      intro hmem
      have h2 := (List.mem_filter.mp hmem).2
      rw [hok] at h2
      cases h2
    refine ⟨?_, ?_, ?_, ?_⟩
    · rw [hsess]; exact hnotfilter
    · rw [lookupA_eq_none_iff, hkeys]; exact hnotfilter
    · intro t srv hmem heq
      rcases tool_bindings_connect_all env cfg freshState (t, srv) hmem with h | h
      · exact (List.not_mem_nil _) h
      · rw [heq, hok] at h
        cases h.2.1
    · intro t srv hmem heq
      rcases prompt_bindings_connect_all env cfg freshState (t, srv) hmem with h | h
      · exact (List.not_mem_nil _) h
      · rw [heq, hok] at h
        cases h.2.1

/-- Witness for C1 at concrete inputs: with config `[A, B]` and `B` failing
to connect, the session list is exactly `[A]` and `B` has no snapshot. -/
theorem C1_witness :
    (connect_all demoEnvBFail ["A", "B"] freshState).sessions = ["A"]
    ∧ lookupA (connect_all demoEnvBFail ["A", "B"] freshState).capabilities "B" = none := by
  have h := C1_graceful_degradation demoEnvBFail ["A", "B"] (by decide)
  refine ⟨?_, (h.2.2.2.2 "B" (by decide) (by decide)).2.1⟩
  rw [h.2.1]
  decide

/-- C7 counterexample: re-running `connect_all` does not replace prior
state. After a first run in which `A` and `B` both connected, a second run
(same config) in which `B` fails to connect leaves `B` registered: `B` is
still in `sessions`, its first-run snapshot is still stored, and the stale
binding of its tool `y` survives — contradicting "exactly the providers
that connected successfully during that second run, with no residual
entries". -/
theorem C7_counterexample :
    (demoEnvBFail "B").connectOk = false
    ∧ "B" ∈ (connect_all demoEnvBFail ["A", "B"] demoState).sessions
    ∧ lookupA (connect_all demoEnvBFail ["A", "B"] demoState).capabilities "B" =
        some (discoverySnapshot demoEnv "B")
    ∧ lookupA (connect_all demoEnvBFail ["A", "B"] demoState).tool_to_server "y" =
        some "B" := by
  exact ⟨by decide, by decide, by decide, by decide⟩

theorem lookupA_toolmap_unchanged (env : String → ServerBehavior)
    (cfg : List String) (st : ClientState) (t : String)
    (h : ∀ c ∈ cfg, (env c).connectOk = true → t ∉ toolNamesOf (env c)) :
    lookupA (connect_all env cfg st).tool_to_server t =
      lookupA st.tool_to_server t := by
  induction cfg generalizing st with
  | nil => rfl
  | cons c rest ih =>
      rw [connect_all_cons,
        ih _ (fun c' hc' => h c' (List.mem_cons_of_mem _ hc'))]
      cases hok : (env c).connectOk
      · rw [connectAllStep_of_fail hok]
      · rw [step_tool_map_ok hok, lookupA_registerAll]
        simp [h c (List.mem_cons_self _ _) hok]

theorem lookupA_promptmap_unchanged (env : String → ServerBehavior)
    (cfg : List String) (st : ClientState) (q : String)
    (h : ∀ c ∈ cfg, (env c).connectOk = true → q ∉ promptNamesOf (env c)) :
    lookupA (connect_all env cfg st).prompt_to_server q =
      lookupA st.prompt_to_server q := by
  induction cfg generalizing st with
  | nil => rfl
  | cons c rest ih =>
      rw [connect_all_cons,
        ih _ (fun c' hc' => h c' (List.mem_cons_of_mem _ hc'))]
      cases hok : (env c).connectOk
      · rw [connectAllStep_of_fail hok]
      · rw [step_prompt_map_ok hok, lookupA_registerAll]
        simp [h c (List.mem_cons_self _ _) hok]

/-- C7 (amended): re-running `connect_all` re-runs full discovery but merges
into the prior state instead of replacing it: the second run never raises;
every previously registered session survives; servers connecting
successfully in the second run are registered with freshly discovered
snapshots (overwriting their own previous entries); the snapshot of any
server not successfully re-connected in the second run is left exactly as
the earlier run recorded it; a tool (prompt) routing binding is left
unchanged whenever no successfully connecting second-run server advertises
that name — so stale bindings of failed or absent providers can survive;
and every binding present after the second run is either such a surviving
earlier binding or points at a successfully connected second-run server
that advertised the name (re-advertised names are overwritten,
last-write-wins, as within a single run). -/
theorem C7_reconnect_merges (env2 : String → ServerBehavior) (cfg2 : List String)
    (st : ClientState) (hnd : cfg2.Nodup) :
    connect_allE env2 cfg2 st = Except.ok (connect_all env2 cfg2 st)
    ∧ (∀ s ∈ st.sessions, s ∈ (connect_all env2 cfg2 st).sessions)
    ∧ (∀ s ∈ cfg2, (env2 s).connectOk = true →
        s ∈ (connect_all env2 cfg2 st).sessions
        ∧ lookupA (connect_all env2 cfg2 st).capabilities s =
            some (discoverySnapshot env2 s))
    ∧ (∀ s, (∀ c ∈ cfg2, c = s → (env2 c).connectOk = false) →
        lookupA (connect_all env2 cfg2 st).capabilities s =
          lookupA st.capabilities s)
    ∧ (∀ t, (∀ c ∈ cfg2, (env2 c).connectOk = true → t ∉ toolNamesOf (env2 c)) →
        lookupA (connect_all env2 cfg2 st).tool_to_server t =
          lookupA st.tool_to_server t)
    ∧ (∀ q, (∀ c ∈ cfg2, (env2 c).connectOk = true → q ∉ promptNamesOf (env2 c)) →
        lookupA (connect_all env2 cfg2 st).prompt_to_server q =
          lookupA st.prompt_to_server q)
    ∧ (∀ p ∈ (connect_all env2 cfg2 st).tool_to_server,
        p ∈ st.tool_to_server
        ∨ (p.2 ∈ cfg2 ∧ (env2 p.2).connectOk = true
            ∧ ∃ tr, (env2 p.2).toolsResult = some tr ∧ p.1 ∈ tr.tools.map Tool.name))
    ∧ (∀ p ∈ (connect_all env2 cfg2 st).prompt_to_server,
        p ∈ st.prompt_to_server
        ∨ (p.2 ∈ cfg2 ∧ (env2 p.2).connectOk = true
            ∧ ∃ pr, (env2 p.2).promptsResult = some pr
                ∧ p.1 ∈ pr.prompts.map Prompt.name)) := by
  refine ⟨connect_allE_eq_ok env2 cfg2 st, sessions_mono env2 cfg2 st, ?_, ?_,
    lookupA_toolmap_unchanged env2 cfg2 st, lookupA_promptmap_unchanged env2 cfg2 st,
    tool_bindings_connect_all env2 cfg2 st, prompt_bindings_connect_all env2 cfg2 st⟩
  · intro s hs hok
    exact ⟨mem_sessions_of_success env2 cfg2 st s hs hok,
      lookupA_capabilities_success env2 cfg2 st hnd s hs hok⟩
  · intro s h
    exact lookupA_capabilities_unchanged env2 cfg2 st s h

/-- Witness for C7 (amended), at the counterexample's inputs: `B`'s session
survives the second run, `A` is freshly re-registered, `B`'s old snapshot is
untouched, and the binding of `y` (advertised by no second-run success) is
left unchanged. -/
theorem C7_witness :
    "B" ∈ (connect_all demoEnvBFail ["A", "B"] demoState).sessions
    ∧ lookupA (connect_all demoEnvBFail ["A", "B"] demoState).capabilities "A" =
        some (discoverySnapshot demoEnvBFail "A")
    ∧ lookupA (connect_all demoEnvBFail ["A", "B"] demoState).capabilities "B" =
        lookupA demoState.capabilities "B"
    ∧ lookupA (connect_all demoEnvBFail ["A", "B"] demoState).tool_to_server "y" =
        lookupA demoState.tool_to_server "y" := by
  have h := C7_reconnect_merges demoEnvBFail ["A", "B"] demoState (by decide)
  exact ⟨h.2.1 "B" (by decide), (h.2.2.1 "A" (by decide) (by decide)).2,
    h.2.2.2.1 "B" (by decide), h.2.2.2.2.1 "y" (by decide)⟩

/-- C10: implicit state invariant after a single `connect_all` run on a
fresh client: `sessions` and `capabilities` have identical keys (in the same
order, even); every routing-table binding points at a registered server
whose stored snapshot's list of that kind contains the bound name;
consequently `call_tool` never raises at all on such a state (its unguarded
`self.capabilities[...]`/`self.sessions[...]` lookups cannot miss), and
`get_prompt` can only raise `McpError`, never `KeyError`. -/
theorem C10_state_invariant (env : String → ServerBehavior) (cfg : List String)
    (hnd : cfg.Nodup) (st : ClientState)
    (hst : st = connect_all env cfg freshState) :
    st.sessions = st.capabilities.map Prod.fst
    ∧ (∀ t srv, (t, srv) ∈ st.tool_to_server →
        srv ∈ st.sessions
        ∧ ∃ caps tr, lookupA st.capabilities srv = some caps
            ∧ caps.tools = some tr ∧ t ∈ tr.tools.map Tool.name)
    ∧ (∀ t srv, (t, srv) ∈ st.prompt_to_server →
        srv ∈ st.sessions
        ∧ ∃ caps pr, lookupA st.capabilities srv = some caps
            ∧ caps.prompts = some pr ∧ t ∈ pr.prompts.map Prompt.name)
    ∧ (∀ (name : String) (srv? : Option String), ∃ r,
        call_toolE st name srv? = Except.ok r)
    ∧ (∀ (name : String) (srv? : Option String) (k : String),
        get_promptE st name srv? ≠ Except.error (PyErr.keyError k)) := by
  subst hst
  have hsess : (connect_all env cfg freshState).sessions =
      cfg.filter (fun s => (env s).connectOk) := by
    rw [sessions_connect_all env cfg freshState hnd (fun s hs h => (List.not_mem_nil s) h)]
    rfl
  have hkeys : (connect_all env cfg freshState).capabilities.map Prod.fst =
      cfg.filter (fun s => (env s).connectOk) := by
    rw [capkeys_connect_all env cfg freshState hnd (fun s hs => rfl)]
    rfl
  have hkeyeq : (connect_all env cfg freshState).sessions =
      (connect_all env cfg freshState).capabilities.map Prod.fst := by
    rw [hsess, hkeys]
  have htool : ∀ t srv, (t, srv) ∈ (connect_all env cfg freshState).tool_to_server →
      srv ∈ (connect_all env cfg freshState).sessions
      ∧ ∃ caps tr, lookupA (connect_all env cfg freshState).capabilities srv = some caps
          ∧ caps.tools = some tr ∧ t ∈ tr.tools.map Tool.name := by
    intro t srv hmem
    rcases tool_bindings_connect_all env cfg freshState (t, srv) hmem with h | h
    · exact absurd h (List.not_mem_nil _)
    · obtain ⟨hcfg, hok, tr, htr, hname⟩ := h
      refine ⟨mem_sessions_of_success env cfg freshState srv hcfg hok, ?_⟩
      refine ⟨discoverySnapshot env srv, tr,
        lookupA_capabilities_success env cfg freshState hnd srv hcfg hok, ?_, hname⟩
      show (env srv).toolsResult = some tr
      exact htr
  have hprompt : ∀ t srv, (t, srv) ∈ (connect_all env cfg freshState).prompt_to_server →
      srv ∈ (connect_all env cfg freshState).sessions
      ∧ ∃ caps pr, lookupA (connect_all env cfg freshState).capabilities srv = some caps
          ∧ caps.prompts = some pr ∧ t ∈ pr.prompts.map Prompt.name := by
    intro t srv hmem
    rcases prompt_bindings_connect_all env cfg freshState (t, srv) hmem with h | h
    · exact absurd h (List.not_mem_nil _)
    · obtain ⟨hcfg, hok, pr, hpr, hname⟩ := h
      refine ⟨mem_sessions_of_success env cfg freshState srv hcfg hok, ?_⟩
      refine ⟨discoverySnapshot env srv, pr,
        lookupA_capabilities_success env cfg freshState hnd srv hcfg hok, ?_, hname⟩
      show (env srv).promptsResult = some pr
      exact hpr
  have hcaps_of_sess : ∀ srv, srv ∈ (connect_all env cfg freshState).sessions →
      ∃ caps, lookupA (connect_all env cfg freshState).capabilities srv = some caps := by
    intro srv hs
    cases hlk : lookupA (connect_all env cfg freshState).capabilities srv with
    | none =>
        rw [lookupA_eq_none_iff] at hlk
        rw [hkeyeq] at hs
        exact absurd hs hlk
    | some caps => exact ⟨caps, rfl⟩
  refine ⟨hkeyeq, htool, hprompt, ?_, ?_⟩
  · intro name srv?
    cases srv? with
    | none =>
        cases hlk : lookupA (connect_all env cfg freshState).tool_to_server name with
        | none =>
            exact ⟨CallToolOutcome.result (create_error_result ("Unknown tool: " ++ name)),
              by simp [call_toolE, hlk]⟩
        | some srv =>
            by_cases hsrv : srv = ""
            · exact ⟨CallToolOutcome.result (create_error_result ("Unknown tool: " ++ name)),
                by simp [call_toolE, hlk, hsrv]⟩
            · have hb := (htool name srv (lookupA_mem hlk)).1
              exact ⟨CallToolOutcome.forwarded srv name,
                by simp [call_toolE, hlk, hsrv, hb]⟩
    | some srv =>
        by_cases hs : srv ∈ (connect_all env cfg freshState).sessions
        · obtain ⟨caps, hcaps⟩ := hcaps_of_sess srv hs
          cases htl : caps.tools with
          | none =>
              exact ⟨CallToolOutcome.result (create_error_result
                ("Server " ++ sq ++ srv ++ sq ++ " has no tools")),
                by simp [call_toolE, hs, hcaps, htl]⟩
          | some tr =>
              by_cases hn : name ∈ tr.tools.map Tool.name
              · exact ⟨CallToolOutcome.forwarded srv name,
                  by simp [call_toolE, hs, hcaps, htl, hn]⟩
              · exact ⟨CallToolOutcome.result (create_error_result
                  ("Tool " ++ sq ++ name ++ sq ++ " not found in server " ++ sq ++ srv ++ sq)),
                  by simp [call_toolE, hs, hcaps, htl, hn]⟩
        · exact ⟨CallToolOutcome.result (create_error_result ("Unknown server: " ++ srv)),
            by simp [call_toolE, hs]⟩
  · intro name srv? k
    cases srv? with
    | none =>
        cases hlk : lookupA (connect_all env cfg freshState).prompt_to_server name with
        | none => simp [get_promptE, hlk]
        | some srv =>
            by_cases hsrv : srv = ""
            · simp [get_promptE, hlk, hsrv]
            · have hb := (hprompt name srv (lookupA_mem hlk)).1
              simp [get_promptE, hlk, hsrv, hb]
    | some srv =>
        by_cases hs : srv ∈ (connect_all env cfg freshState).sessions
        · obtain ⟨caps, hcaps⟩ := hcaps_of_sess srv hs
          cases hpl : caps.prompts with
          | none => simp [get_promptE, hs, hcaps, hpl]
          | some pr =>
              by_cases hn : name ∈ pr.prompts.map Prompt.name
              · simp [get_promptE, hs, hcaps, hpl, hn]
              · simp [get_promptE, hs, hcaps, hpl, hn]
        · simp [get_promptE, hs]

/-- Witness for C10 at the demo state: identical key lists, and `call_tool`
returns `ok` (an outcome value, no exception) at a routed and an unknown
name. -/
theorem C10_witness :
    demoState.sessions = demoState.capabilities.map Prod.fst
    ∧ (∃ r, call_toolE demoState "x" none = Except.ok r)
    ∧ (∃ r, call_toolE demoState "z" none = Except.ok r)
    ∧ get_promptE demoState "p" none ≠ Except.error (PyErr.keyError "B") := by
  have h := C10_state_invariant demoEnv ["A", "B"] (by decide) demoState rfl
  exact ⟨h.1, h.2.2.2.1 "x" none, h.2.2.2.1 "z" none, h.2.2.2.2 "p" none "B"⟩

end MSC
